import Mathlib

/-!
# Verification of the safe-proxy-site target-validation and routing core

This file gives a shallow embedding of the security-critical core of the
`safe-proxy-site` repository and proves properties of it.  The repository
contains two variants of the same Express proxy server:

* `src/server.js` — uses the `url-parse` package, validator `allowedTarget`
  with host check `isPrivateHost`, rejection marker `REJECT:`, a 405 method
  filter on `/proxy`, and a fallback to `DEFAULT_TARGET` when no `url`
  query parameter is supplied;
* `src/unnamed/part_000` — uses the WHATWG `URL` constructor, validator
  `parseAndValidateTarget` with host check `isPrivateOrIpLiteral`,
  rejection marker `REJECTED_TARGET:`, no method filter, and a 400
  rejection when the `url` query parameter is missing.

Both variants are embedded.  JavaScript strings are modelled as Lean
`String`; the few string operations the source uses (`toLowerCase`,
`endsWith`, `includes`, `split`, `startsWith`, `replace`, regexp tests
against the concrete patterns appearing in the source) are implemented
below over `String.data` so that every definition is executable and
kernel-reducible.  Hostnames and header names are ASCII in all the
behaviour under study, so ASCII lowercasing models `toLowerCase`.
-/

namespace SafeProxy

/-- ASCII lowercasing of one character (models `String.prototype.toLowerCase`
on the ASCII hostnames and schemes this program manipulates). -/
def lowerChar (c : Char) : Char :=
  if 65 ≤ c.toNat ∧ c.toNat ≤ 90 then Char.ofNat (c.toNat + 32) else c

/-- ASCII lowercasing of a string. -/
def strLower (s : String) : String :=
  String.mk (s.data.map lowerChar)

/-- `s.endsWith suffixStr` — models JavaScript `String.prototype.endsWith`. -/
def strEndsWith (s t : String) : Bool :=
  t.data.isSuffixOf s.data

/-- Models JavaScript `String.prototype.startsWith`. -/
def strStartsWith (s t : String) : Bool :=
  t.data.isPrefixOf s.data

/-- Models JavaScript `String.prototype.includes(":")`. -/
def containsColon (s : String) : Bool :=
  s.data.contains ':'

/-- Split a character list at every occurrence of `c`
(models JavaScript `String.prototype.split` with a one-character separator:
`"a.b".split "." = ["a","b"]`, `"".split "." = [""]`). -/
def splitChar (c : Char) : List Char → List (List Char)
  | [] => [[]]
  | x :: xs =>
    if x = c then [] :: splitChar c xs
    else
      match splitChar c xs with
      | h :: t => (x :: h) :: t
      | [] => [[x]]

/-- Split a list at the first occurrence of the pattern `pat`, returning the
part before and the part after it, or `none` when `pat` does not occur. -/
def splitFirstAux (pat : List Char) : List Char → Option (List Char × List Char)
  | [] => if pat.isEmpty then some ([], []) else none
  | x :: xs =>
    if pat.isPrefixOf (x :: xs) then some ([], (x :: xs).drop pat.length)
    else
      match splitFirstAux pat xs with
      | some (pre, post) => some (x :: pre, post)
      | none => none

/-- Models JavaScript `String.prototype.replace` with a plain-string pattern:
replaces the first occurrence of `pat` in `s` by the empty string. -/
def removeFirstOccurrence (pat s : String) : String :=
  match splitFirstAux pat.data s.data with
  | some (pre, post) => String.mk (pre ++ post)
  | none => s

/-- One to three decimal digits — one segment of the dotted-decimal IPv4
patterns `^(\d\x7b1,3\x7d\.)\x7b3\x7d\d\x7b1,3\x7d$` (part_000) and
`^\d\x7b1,3\x7d(\.\d\x7b1,3\x7d)\x7b3\x7d$` (server.js), which describe the
same language. -/
def ipv4Octet (l : List Char) : Bool :=
  !l.isEmpty && decide (l.length ≤ 3) && l.all Char.isDigit

/-- Test of the anchored dotted-decimal IPv4 regular expression used by both
`isPrivateOrIpLiteral` (part_000) and `isPrivateHost` (server.js). -/
def ipv4Dotted (s : String) : Bool :=
  match splitChar '.' s.data with
  | [a, b, c, d] => ipv4Octet a && ipv4Octet b && ipv4Octet c && ipv4Octet d
  | _ => false

/-!  ## The parsed-URL record

A normalized record of the components both parsers expose.  The fields
mirror the WHATWG `URL` properties the source reads: `protocol` (with the
trailing `:`), `hostname` (without port), `port`, `pathname` and `search`
(with the leading `?` when non-empty). -/

structure URLRecord where
  protocol : String
  hostname : String
  port : Option Nat
  pathname : String
  search : String
  deriving DecidableEq

/-- `host` — hostname plus `:port` when a port is present (the `url-parse`
`host` property read by server.js `allowedTarget`). -/
def hostOf (r : URLRecord) : String :=
  r.hostname ++ (match r.port with | some p => ":" ++ toString p | none => "")

/-- `origin` — `scheme://host`, the WHATWG property returned by the part_000
router for the upstream authority. -/
def urlOrigin (r : URLRecord) : String :=
  r.protocol ++ "//" ++ hostOf r

/-- Characters allowed inside a URL scheme. -/
def schemeChar (c : Char) : Bool :=
  c.isAlpha || c.isDigit || c == '+' || c == '-' || c == '.'

/-- Take characters until `/`, `?` or `#` — the authority component. -/
def takeAuthority : List Char → (List Char × List Char)
  | [] => ([], [])
  | c :: cs =>
    if c = '/' || c = '?' || c = '#' then ([], c :: cs)
    else
      match takeAuthority cs with
      | (a, b) => (c :: a, b)

/-- Numeric value of a non-empty digit string, or `none`. -/
def natFromDigits (l : List Char) : Option Nat :=
  if l.isEmpty then none
  else if l.all Char.isDigit then
    some (l.foldl (fun n c => n * 10 + (c.toNat - 48)) 0)
  else none

/-- Model of the URL constructors used by the two variants (the WHATWG `URL`
constructor in part_000 and the `url-parse` constructor in server.js) on
absolute URLs of the shape `scheme://host[:port][/path][?query][#frag]`,
the shape every input studied in this file has.  The scheme and hostname
are lowercased as both parsers do, the fragment is dropped, an absent or
empty path serializes as `/`, an empty or absent query as `""`, and a
non-numeric or out-of-range port fails the parse. -/
def parseURL (s : String) : Option URLRecord :=
  match splitFirstAux "://".data s.data with
  | none => none
  | some (schemeChars, rest) =>
    match schemeChars with
    | [] => none
    | c0 :: _ =>
      if !(c0.isAlpha && schemeChars.all schemeChar) then none
      else
        let protocol := String.mk (schemeChars.map lowerChar) ++ ":"
        let rest := rest.takeWhile (fun c => c ≠ '#')
        match takeAuthority rest with
        | ([], _) => none
        | (auth, tail) =>
          let pathChars := tail.takeWhile (fun c => c ≠ '?')
          let queryChars := tail.dropWhile (fun c => c ≠ '?')
          let pathname := if pathChars.isEmpty then "/" else String.mk pathChars
          let search := if queryChars.isEmpty || queryChars = ['?'] then ""
                        else String.mk queryChars
          match splitChar ':' auth with
          | [h] =>
            some ⟨protocol, String.mk (h.map lowerChar), none, pathname, search⟩
          | [h, p] =>
            if p.isEmpty then
              some ⟨protocol, String.mk (h.map lowerChar), none, pathname, search⟩
            else
              match natFromDigits p with
              | some n =>
                if n ≤ 65535 then
                  some ⟨protocol, String.mk (h.map lowerChar), some n, pathname, search⟩
                else none
              | none => none
          | _ => none

/-!  ## part_000: `isPrivateOrIpLiteral` and `parseAndValidateTarget` -/

/-- The rejection reasons produced by part_000 `parseAndValidateTarget`
(the spec names them MissingTarget, InvalidURL, UnsupportedScheme,
PrivateOrLiteralHost, DomainNotAllowlisted). -/
def reasonMissing : String := "Missing \x27url\x27 query parameter"

def reasonInvalidURL : String := "Invalid URL"

def reasonScheme : String := "Only HTTP, HTTPS, WS, and WSS are allowed"

def reasonPrivate : String := "Private hosts and IP literals are blocked"

def reasonNotAllowlisted : String := "Domain is not in PROXY_ALLOWLIST"

/-- The scheme allowlist of part_000 (`["http:", "https:", "ws:", "wss:"]`). -/
def supportedProtocols : List String := ["http:", "https:", "ws:", "wss:"]

/-- part_000 `isPrivateOrIpLiteral(hostname)`: empty hostname, dotted-decimal
IPv4 literal, any hostname containing `:`, `localhost` or a subdomain of
`localhost`. -/
def isPrivateOrIpLiteral (hostname : String) : Bool :=
  if hostname = "" then true
  else if ipv4Dotted hostname then true
  else if containsColon hostname then true
  else
    let lower := strLower hostname
    lower == "localhost" || strEndsWith lower ".localhost"

/-- Validation verdict of part_000 `parseAndValidateTarget`:
`\x7bok: true, target\x7d` or `\x7bok: false, reason\x7d`. -/
inductive VResult where
  | ok (target : URLRecord)
  | err (reason : String)
  deriving DecidableEq

/-- The post-parse steps of part_000 `parseAndValidateTarget`: scheme
allowlist, private/literal host check on the lowercased hostname, then the
domain allowlist (exact or `"." ++ entry` suffix match). -/
def parseAndValidateTargetRecord (L : List String) (parsed : URLRecord) : VResult :=
  let protocol := strLower parsed.protocol
  if supportedProtocols.contains protocol = false then .err reasonScheme
  else
    let hostname := strLower parsed.hostname
    if isPrivateOrIpLiteral hostname = true then .err reasonPrivate
    else if L.any (fun d => hostname == d || strEndsWith hostname ("." ++ d)) = true then
      .ok parsed
    else .err reasonNotAllowlisted

/-- part_000 `parseAndValidateTarget(target)`: missing-target check (the
empty string is the only falsy JavaScript string), URL parse, then the
post-parse checks. -/
def parseAndValidateTarget (L : List String) (target : String) : VResult :=
  if target = "" then .err reasonMissing
  else
    match parseURL target with
    | none => .err reasonInvalidURL
    | some parsed => parseAndValidateTargetRecord L parsed

/-!  ## server.js: `isPrivateHost` and `allowedTarget` -/

/-- The `^172\.(1[6-9]|2[0-9]|3[0-1])\.` private-range pattern of server.js:
the string starts with `172.`, the next dot-separated segment is one of the
two-character strings `16` … `31`, and another `.` follows it. -/
def starts172Private (h : String) : Bool :=
  match splitChar '.' h.data with
  | a :: b :: _ :: _ =>
    a = "172".data &&
      (["16", "17", "18", "19", "20", "21", "22", "23", "24",
        "25", "26", "27", "28", "29", "30", "31"].map String.data).contains b
  | _ => false

/-- The `PRIVATE_NET_RANGES` regular expressions of server.js, tested against
a host that already matched the dotted-decimal IPv4 pattern. -/
def privateNetRanges (h : String) : Bool :=
  strStartsWith h "10." || strStartsWith h "127." || strStartsWith h "169.254." ||
  starts172Private h || strStartsWith h "192.168." ||
  h == "::1" || strStartsWith h "fc00:" || strStartsWith h "fe80:"

/-- Characters of the server.js raw-IPv6 pattern `^[a-f0-9:]+$` with the
case-insensitive flag. -/
def hexColonChar (c : Char) : Bool :=
  c.isDigit || (97 ≤ c.toNat && c.toNat ≤ 102) || (65 ≤ c.toNat && c.toNat ≤ 70) || c == ':'

/-- server.js `isPrivateHost(host)`.  Note that `allowedTarget` passes it the
`url-parse` `host` property, which still carries the `:port` suffix. -/
def isPrivateHost (host : String) : Bool :=
  if host = "" then true
  else
    let h := strLower host
    if ipv4Dotted h then privateNetRanges h
    else if !h.data.isEmpty && h.data.all hexColonChar then true
    else false

/-- Verdict of server.js `allowedTarget`: `\x7bok: true, url\x7d` or
`\x7bok: false, reason\x7d`. -/
inductive AResult where
  | ok (url : URLRecord)
  | err (reason : String)
  deriving DecidableEq

/-- The post-parse steps of server.js `allowedTarget`: lowercased `host`
(hostname plus port) must be non-empty and pass `isPrivateHost`, then the
hostname (`host.split(":")[0]`) must match the allowlist exactly or as a
`"." ++ entry` suffix.  There is no scheme check in this variant. -/
def allowedTargetRecord (L : List String) (parsed : URLRecord) : AResult :=
  let host := strLower (hostOf parsed)
  if host = "" then .err "No host"
  else if isPrivateHost host = true then .err "Private/invalid host"
  else
    let hostname := String.mk ((splitChar ':' host.data).headD [])
    if L.any (fun a => hostname == a || strEndsWith hostname ("." ++ a)) = true then
      .ok parsed
    else .err "Host not in allowlist"

/-- server.js `allowedTarget(urlStr)`: parse with `url-parse` (modelled by
`parseURL`, with a parse failure taking the `catch` branch), then the
post-parse checks. -/
def allowedTarget (L : List String) (urlStr : String) : AResult :=
  match parseURL urlStr with
  | none => .err "Bad URL"
  | some parsed => allowedTargetRecord L parsed

/-!  ## The `/proxy` pipelines

Each variant installs an `app.use("/proxy", handler)` middleware in front of
`createProxyMiddleware`; the proxy middleware consults `router` for the
upstream authority (throwing a marker error on rejection, converted by
`onError` into a 400) and `pathRewrite` for the outbound path.  The handler
models the request by its method and its `url` query parameter, `none`
meaning the parameter is absent.  JavaScript truthiness of
`req.query.url` is `truthy` below (the empty string is falsy). -/

/-- Truthiness of the optional `url` query parameter. -/
def truthy (u : Option String) : Bool :=
  match u with
  | none => false
  | some s => s != ""

/-- The method allowlist of the server.js `/proxy` middleware. -/
def allowedMethods : List String :=
  ["GET", "POST", "PUT", "PATCH", "DELETE", "HEAD", "OPTIONS"]

/-- Outcome of one `/proxy` request as decided by the embedded pipeline:
a 400 validation response with its reason, a 405, or a forward to an
upstream target (with the rewritten outbound path, `none` meaning the
inbound path is kept). -/
inductive ProxyOutcome where
  | badRequest (error : String)
  | methodNotAllowed
  | forward (target : String) (path : Option String)
  deriving DecidableEq

/-- The part_000 router: re-validates `String(req.query.url || "")` and
returns `validation.target.origin`, throwing `REJECTED_TARGET:reason`
(modelled by `Except.error`) on rejection. -/
def part000Router (L : List String) (u : Option String) : Except String String :=
  match parseAndValidateTarget L (u.getD "") with
  | .err reason => .error ("REJECTED_TARGET:" ++ reason)
  | .ok r => .ok (urlOrigin r)

/-- The part_000 `pathRewrite`: `pathname ++ search` of the validated target,
`/` when validation fails. -/
def part000PathRewrite (L : List String) (u : Option String) : String :=
  match parseAndValidateTarget L (u.getD "") with
  | .err _ => "/"
  | .ok r => r.pathname ++ r.search

/-- The part_000 `/proxy` pipeline: the outer middleware validates
`String(req.query.url || "")` and answers 400 with the reason on rejection;
otherwise the proxy middleware forwards to the router's origin with the
rewritten path.  The route is installed with `app.use`, so it matches every
HTTP method: the `method` argument is never inspected. -/
def part000ProxyHandler (L : List String) (_method : String) (u : Option String) :
    ProxyOutcome :=
  match parseAndValidateTarget L (u.getD "") with
  | .err reason => .badRequest reason
  | .ok r => .forward (urlOrigin r) (some (r.pathname ++ r.search))

/-- Does the part_000 outer `/proxy` middleware pass the request through to
the proxy middleware? -/
def part000OuterPasses (L : List String) (u : Option String) : Bool :=
  match parseAndValidateTarget L (u.getD "") with
  | .ok _ => true
  | .err _ => false

/-- The server.js router: with no (or falsy) `url` parameter it returns
`DEFAULT_TARGET`; otherwise it re-checks `allowedTarget` and returns the raw
parameter string, throwing `REJECT:reason` on rejection. -/
def serverJsRouter (L : List String) (defaultTarget : String) (u : Option String) :
    Except String String :=
  if truthy u = false then .ok defaultTarget
  else
    match allowedTarget L (u.getD "") with
    | .err reason => .error ("REJECT:" ++ reason)
    | .ok _ => .ok (u.getD "")

/-- Does the server.js outer `/proxy` middleware pass the request through?
It only validates when `req.query.url` is truthy. -/
def serverJsOuterPasses (L : List String) (u : Option String) : Bool :=
  if truthy u = false then true
  else
    match allowedTarget L (u.getD "") with
    | .ok _ => true
    | .err _ => false

/-- The server.js `pathRewrite`: with a truthy `url` parameter the outbound
path is `pathname ++ query` of a fresh parse of it; otherwise the inbound
path is kept (`none`). -/
def serverJsRewrittenPath (u : Option String) : Option String :=
  if truthy u = false then none
  else
    match parseURL (u.getD "") with
    | some r => some (r.pathname ++ r.search)
    | none => some "/"

/-- The server.js `/proxy` pipeline: 405 for a method outside
`allowedMethods`; a 400 with the reason when a truthy `url` parameter fails
`allowedTarget`; otherwise the proxy middleware forwards to the router's
target (a router throw would be turned into a 400 by `onError`). -/
def serverJsProxyHandler (L : List String) (defaultTarget : String)
    (method : String) (u : Option String) : ProxyOutcome :=
  if allowedMethods.contains method = false then .methodNotAllowed
  else if truthy u = true then
    match allowedTarget L (u.getD "") with
    | .err reason => .badRequest reason
    | .ok _ =>
      match serverJsRouter L defaultTarget u with
      | .error msg => .badRequest (removeFirstOccurrence "REJECT:" msg)
      | .ok target => .forward target (serverJsRewrittenPath u)
  else
    match serverJsRouter L defaultTarget u with
    | .error msg => .badRequest (removeFirstOccurrence "REJECT:" msg)
    | .ok target => .forward target (serverJsRewrittenPath u)

/-!  ## Header sanitization

Node header collections are modelled as association lists from header names
to values; names are stored in their canonical (source-literal) spelling. -/

/-- A header collection. -/
abbrev Headers : Type := List (String × String)

/-- Look a header up by name. -/
def headerLookup (n : String) : Headers → Option String
  | [] => none
  | (k, v) :: rest => if k = n then some v else headerLookup n rest

/-- `removeHeader`: drop every entry with the given name. -/
def removeHeader (n : String) : Headers → Headers
  | [] => []
  | (k, v) :: rest => if k = n then removeHeader n rest else (k, v) :: removeHeader n rest

/-- `setHeader`: replace any entry with the given name. -/
def setHeader (n v : String) (hs : Headers) : Headers :=
  (n, v) :: removeHeader n hs

/-- The hop-by-hop header list removed by `onProxyReq` in both variants. -/
def hopByHopHeaders : List String :=
  ["connection", "keep-alive", "proxy-authenticate", "proxy-authorization",
   "te", "trailers", "transfer-encoding", "upgrade"]

/-- Remove every header named in `names`. -/
def removeHeaders (names : List String) (hs : Headers) : Headers :=
  names.foldl (fun acc h => removeHeader h acc) hs

/-- part_000 `onProxyReq`: set `X-Forwarded-By: safe-proxy-site`, then remove
the hop-by-hop headers.  (server.js performs the same two steps in the
opposite order; the removal list does not contain `X-Forwarded-By`, so the
resulting header collection is the same.) -/
def onProxyReqHeaders (hs : Headers) : Headers :=
  removeHeaders hopByHopHeaders (setHeader "X-Forwarded-By" "safe-proxy-site" hs)

/-- The hop-by-hop headers actually removed on a hop: all of them for a
plain request, all but `upgrade` and `connection` for a protocol-upgrade
request. -/
def removedHopHeaders (isUpgrade : Bool) : List String :=
  if isUpgrade then
    hopByHopHeaders.filter (fun h => !(h == "upgrade" || h == "connection"))
  else hopByHopHeaders

/-- Modelled from the spec: the upgrade-request branch of request-direction
header sanitization.  `http-proxy-middleware` (a dependency, not part of
`src/`) runs `onProxyReq` on plain requests and preserves the
`upgrade`/`connection` pair on the WebSocket-upgrade hop; per the spec the
other hop-by-hop headers are still removed and the identifying header is
still set on that hop. -/
def forwardedRequestHeaders (isUpgrade : Bool) (hs : Headers) : Headers :=
  removeHeaders (removedHopHeaders isUpgrade)
    (setHeader "X-Forwarded-By" "safe-proxy-site" hs)

/-- server.js `onProxyRes`: delete the `server` and `x-powered-by` response
headers before the response is relayed to the client.  This hook exists
only in the server.js variant. -/
def onProxyResHeaders (hs : Headers) : Headers :=
  removeHeader "x-powered-by" (removeHeader "server" hs)

/-- The part_000 `createProxyMiddleware` options register no `onProxyRes`
hook at all: upstream response headers are relayed to the client
unchanged. -/
def part000ResponseHeaders (hs : Headers) : Headers :=
  hs

/-!  ## `onError` -/

/-- The response produced by the part_000 `onError` handler: the 400
rejection body (with the marker stripped from the message) or the 502
bad-gateway body (carrying the raw message as `detail`). -/
inductive OnErrorResult where
  | rejected (error : String)
  | badGateway (detail : String)
  deriving DecidableEq

/-- The rejection marker of part_000. -/
def rejectedMarker : String := "REJECTED_TARGET:"

/-- part_000 `onError(error, _req, res)`: a message starting with the marker
is answered 400 with the marker stripped; otherwise 502, but only when
response headers have not been sent yet (`none` models "no response
written"). -/
def onErrorResponse (headersSent : Bool) (message : String) : Option OnErrorResult :=
  if strStartsWith message rejectedMarker then
    some (.rejected (removeFirstOccurrence rejectedMarker message))
  else if headersSent then none
  else some (.badGateway message)

/-- Is the error converted into the 400 validation-rejection response? -/
def onErrorIsRejection (headersSent : Bool) (message : String) : Bool :=
  match onErrorResponse headersSent message with
  | some (.rejected _) => true
  | _ => false

/-- The five reason strings `parseAndValidateTarget` can produce — every
message the part_000 router ever throws is `REJECTED_TARGET:` followed by
one of these. -/
def validatorReasons : List String :=
  [reasonMissing, reasonInvalidURL, reasonScheme, reasonPrivate, reasonNotAllowlisted]

/-- Membership in `validatorReasons`. -/
def isValidatorReason (r : String) : Bool :=
  validatorReasons.contains r

/-- The rejection marker of server.js. -/
def rejectMarker : String := "REJECT:"

/-- server.js `onError(err, req, res)`: a message starting with the
`REJECT:` marker is answered 400 (body `error: "Target rejected"` with the
marker stripped from the reason); otherwise 502 `Bad gateway`, but only
when response headers have not been sent yet. -/
def serverJsOnErrorResponse (headersSent : Bool) (message : String) :
    Option OnErrorResult :=
  if strStartsWith message rejectMarker then
    some (.rejected (removeFirstOccurrence rejectMarker message))
  else if headersSent then none
  else some (.badGateway message)

/-- Is the error converted into server.js's 400 validation-rejection
response? -/
def serverJsOnErrorIsRejection (headersSent : Bool) (message : String) : Bool :=
  match serverJsOnErrorResponse headersSent message with
  | some (.rejected _) => true
  | _ => false

/-- The four reason strings server.js `allowedTarget` can produce — every
message the server.js router ever throws is `REJECT:` followed by one of
these. -/
def serverJsValidatorReasons : List String :=
  ["Bad URL", "No host", "Private/invalid host", "Host not in allowlist"]

/-- Membership in `serverJsValidatorReasons`. -/
def isServerJsValidatorReason (r : String) : Bool :=
  serverJsValidatorReasons.contains r

/-- The hostname server.js derives inside `allowedTarget`:
`host.split(":")[0]` of the lowercased host-with-port. -/
def serverJsHostname (r : URLRecord) : String :=
  String.mk ((splitChar ':' (strLower (hostOf r)).data).headD [])

/-- Did a router call return normally (as opposed to throwing)? -/
def routerOk (e : Except String String) : Bool :=
  match e with
  | .ok _ => true
  | .error _ => false

/-!  # Helper lemmas -/

/-- A hostname matching the dotted-decimal IPv4 pattern or containing a
colon trips `isPrivateOrIpLiteral`. -/
theorem isPrivateOrIpLiteral_of_ipv4_or_colon (h : String)
    (hh : ipv4Dotted h = true ∨ containsColon h = true) :
    isPrivateOrIpLiteral h = true := by
  unfold isPrivateOrIpLiteral
  rcases hh with h1 | h1 <;> by_cases he : h = "" <;> simp [he, h1]

/-- Looking a name up after `removeHeader` of another name. -/
theorem headerLookup_removeHeader (n m : String) (hs : Headers) :
    headerLookup n (removeHeader m hs) = if n = m then none else headerLookup n hs := by
  induction hs with
  | nil => simp [removeHeader, headerLookup]
  | cons p rest ih =>
    obtain ⟨k, v⟩ := p
    by_cases hkm : k = m
    · subst hkm
      by_cases hnk : n = k
      · subst hnk; simp [removeHeader, headerLookup, ih]
      · simp [removeHeader, headerLookup, ih, hnk, Ne.symm hnk]
    · by_cases hkn : k = n
      · subst hkn
        have hnm : ¬k = m := hkm
        simp [removeHeader, headerLookup, hkm, hnm, ih]
      · simp [removeHeader, headerLookup, hkm, hkn, ih]

/-- Looking a name up after removing a whole list of names. -/
theorem headerLookup_removeHeaders (names : List String) (n : String) (hs : Headers) :
    headerLookup n (removeHeaders names hs) =
      if n ∈ names then none else headerLookup n hs := by
  induction names generalizing hs with
  | nil => simp [removeHeaders]
  | cons a as ih =>
    have hstep : removeHeaders (a :: as) hs = removeHeaders as (removeHeader a hs) := rfl
    rw [hstep, ih, headerLookup_removeHeader]
    by_cases h1 : n ∈ as <;> by_cases h2 : n = a <;> simp [h1, h2]

/-- Looking a name up after `setHeader`. -/
theorem headerLookup_setHeader (n k v : String) (hs : Headers) :
    headerLookup n (setHeader k v hs) = if n = k then some v else headerLookup n hs := by
  unfold setHeader
  by_cases h : n = k
  · subst h; simp [headerLookup]
  · simp [headerLookup, h, Ne.symm h, headerLookup_removeHeader]

/-- `parseAndValidateTargetRecord` only ever rejects with one of the three
post-parse reason strings. -/
theorem parseAndValidateTargetRecord_err_reasons (L : List String) (p : URLRecord)
    (r : String) (h : parseAndValidateTargetRecord L p = .err r) :
    r = reasonScheme ∨ r = reasonPrivate ∨ r = reasonNotAllowlisted := by
  simp only [parseAndValidateTargetRecord] at h
  split at h
  · cases h; exact Or.inl rfl
  · split at h
    · cases h; exact Or.inr (Or.inl rfl)
    · split at h
      · cases h
      · cases h; exact Or.inr (Or.inr rfl)

/-- server.js `allowedTargetRecord` only ever rejects with one of its three
post-parse reason strings. -/
theorem allowedTargetRecord_err_reasons (L : List String) (p : URLRecord)
    (r : String) (h : allowedTargetRecord L p = .err r) :
    r = "No host" ∨ r = "Private/invalid host" ∨ r = "Host not in allowlist" := by
  simp only [allowedTargetRecord] at h
  split at h
  · cases h; exact Or.inl rfl
  · split at h
    · cases h; exact Or.inr (Or.inl rfl)
    · split at h
      · cases h
      · cases h; exact Or.inr (Or.inr rfl)

/-!  # Claims -/

/-- C1, counterexample: the claim says the target validator rejects every
input whose parsed hostname is a dotted-decimal IPv4 literal with the
PrivateOrLiteralHost reason, for every allowlist including ones containing
that hostname.  The server.js variant violates it: `allowedTarget` passes
the `url-parse` `host` property — which still carries the `:port` suffix —
to `isPrivateHost`, whose anchored patterns then fail to match, so
`http://127.0.0.1:8080/` is accepted outright when `127.0.0.1` is
allowlisted. -/
theorem claim1_counterexample :
    allowedTarget ["127.0.0.1"] "http://127.0.0.1:8080/" =
      .ok ⟨"http:", "127.0.0.1", some 8080, "/", ""⟩ ∧
    ipv4Dotted "127.0.0.1" = true ∧
    isPrivateHost "127.0.0.1" = true := by
  refine ⟨by decide, by decide, by decide⟩

/-- C1 (amended): in the part_000 validator `parseAndValidateTarget`, every
parsed target whose (supported, lowercased) scheme passes the scheme check
and whose lowercased hostname matches the dotted-decimal IPv4 pattern or
contains a colon is rejected with the PrivateOrLiteralHost reason, for
every allowlist; in particular `http://127.0.0.1:8080/` is answered 400
with that reason.  (A target with an unsupported scheme is reported as
UnsupportedScheme first, and the server.js variant fails to detect IP
literals carrying a port — see the counterexample.) -/
theorem claim1_amended :
    (∀ (L : List String) (r : URLRecord),
        supportedProtocols.contains (strLower r.protocol) = true →
        (ipv4Dotted (strLower r.hostname) = true ∨
          containsColon (strLower r.hostname) = true) →
        parseAndValidateTargetRecord L r = .err reasonPrivate) ∧
    part000ProxyHandler ["example.com"] "GET" (some "http://127.0.0.1:8080/") =
      .badRequest reasonPrivate := by
  constructor
  · intro L r hs hh
    have hs' : strLower r.protocol ∈ supportedProtocols := by simpa using hs
    have hpriv := isPrivateOrIpLiteral_of_ipv4_or_colon _ hh
    simp only [parseAndValidateTargetRecord]
    simp [hs', hpriv]
  · decide

/-- C1 witness: the amended theorem applied to the allowlist `["127.0.0.1"]`
(which contains the hostname) and the parse of `http://127.0.0.1:8080/`. -/
theorem claim1_witness :
    parseAndValidateTargetRecord ["127.0.0.1"]
      ⟨"http:", "127.0.0.1", some 8080, "/", ""⟩ = .err reasonPrivate :=
  claim1_amended.1 ["127.0.0.1"] ⟨"http:", "127.0.0.1", some 8080, "/", ""⟩
    (by decide) (Or.inl (by decide))

/-- C2, counterexample: the claim says the target validator rejects every
URL whose scheme is outside {http, https, ws, wss} with the
UnsupportedScheme reason, so that `ftp://example.com/` is rejected even
when `example.com` is allowlisted.  The server.js variant `allowedTarget`
performs no scheme check at all and accepts `ftp://example.com/` under the
allowlist `["example.com"]`. -/
theorem claim2_counterexample :
    allowedTarget ["example.com"] "ftp://example.com/" =
      .ok ⟨"ftp:", "example.com", none, "/", ""⟩ := by
  decide

/-- C2 (amended): in the part_000 validator, every parsed target whose
lowercased scheme is not one of `http:`, `https:`, `ws:`, `wss:` is
rejected with the UnsupportedScheme reason regardless of the allowlist,
every accepted target has one of those schemes, and
`ftp://example.com/` is rejected with that reason even under the allowlist
`["example.com"]`.  (The server.js variant checks no scheme — see the
counterexample.) -/
theorem claim2_amended :
    (∀ (L : List String) (r : URLRecord),
        supportedProtocols.contains (strLower r.protocol) = false →
        parseAndValidateTargetRecord L r = .err reasonScheme) ∧
    (∀ (L : List String) (r t : URLRecord),
        parseAndValidateTargetRecord L r = .ok t →
        supportedProtocols.contains (strLower t.protocol) = true) ∧
    parseAndValidateTarget ["example.com"] "ftp://example.com/" = .err reasonScheme := by
  refine ⟨?_, ?_, by decide⟩
  · intro L r hs
    have hs' : strLower r.protocol ∉ supportedProtocols := by simpa using hs
    simp only [parseAndValidateTargetRecord]
    simp [hs']
  · intro L r t h
    by_cases hs : supportedProtocols.contains (strLower r.protocol) = true
    · have ht : t = r := by
        simp only [parseAndValidateTargetRecord] at h
        split at h
        · cases h
        · split at h
          · cases h
          · split at h
            · cases h; rfl
            · cases h
      rw [ht]; exact hs
    · exfalso
      have hs' : supportedProtocols.contains (strLower r.protocol) = false := by
        cases hb : supportedProtocols.contains (strLower r.protocol)
        · rfl
        · exact absurd hb hs
      simp only [parseAndValidateTargetRecord] at h
      rw [if_pos hs'] at h
      cases h

/-- C2 witness: the amended theorem applied to the parse of
`ftp://example.com/` under the allowlist `["example.com"]`. -/
theorem claim2_witness :
    parseAndValidateTargetRecord ["example.com"]
      ⟨"ftp:", "example.com", none, "/", ""⟩ = .err reasonScheme :=
  claim2_amended.1 ["example.com"] ⟨"ftp:", "example.com", none, "/", ""⟩ (by decide)

/-- C3, counterexample: the claim says a `/proxy` request without a `url`
query parameter is not rejected but forwarded to the configured default
upstream.  The part_000 pipeline validates `String(req.query.url || "")`,
i.e. the empty string, and answers 400 with the MissingTarget reason. -/
theorem claim3_counterexample :
    part000ProxyHandler ["example.com"] "GET" none = .badRequest reasonMissing := by
  decide

/-- C3 (amended): in the server.js pipeline, a `/proxy` request with an
allowed method and no `url` query parameter is forwarded to the statically
configured `DEFAULT_TARGET` with the inbound path kept, not rejected; the
part_000 variant instead rejects such a request with the MissingTarget
reason (see the counterexample). -/
theorem claim3_amended :
    ∀ (L : List String) (d m : String),
      allowedMethods.contains m = true →
      serverJsProxyHandler L d m none = .forward d none := by
  intro L d m hm
  have hm' : m ∈ allowedMethods := by simpa using hm
  simp only [serverJsProxyHandler]
  simp [hm', truthy, serverJsRouter, serverJsRewrittenPath]

/-- C3 witness: a `GET /proxy` request with no `url` parameter is forwarded
to the default target. -/
theorem claim3_witness :
    serverJsProxyHandler ["example.com"] "https://example.com" "GET" none =
      .forward "https://example.com" none :=
  claim3_amended ["example.com"] "https://example.com" "GET" (by decide)

/-- C4, counterexample: the claim says an error is classified as a
validation rejection if and only if it originated from the target
validator, via a structural marker.  Both variants classify by a string
test on `error.message` (`startsWith("REJECTED_TARGET:")` in part_000,
`startsWith("REJECT:")` in server.js): a message that the respective
validator can never produce (its reason part is none of that validator's
reason strings) is still converted into the 400 validation response. -/
theorem claim4_counterexample :
    onErrorResponse false "REJECTED_TARGET:connect ECONNREFUSED 127.0.0.1:443" =
      some (.rejected "connect ECONNREFUSED 127.0.0.1:443") ∧
    isValidatorReason "connect ECONNREFUSED 127.0.0.1:443" = false ∧
    serverJsOnErrorResponse false "REJECT:socket hang up" =
      some (.rejected "socket hang up") ∧
    isServerJsValidatorReason "socket hang up" = false := by
  refine ⟨by decide, by decide, by decide, by decide⟩

/-- C4 (amended): each variant's error-to-response conversion classifies an
error as a validation rejection exactly when its message string starts
with that variant's marker (`REJECTED_TARGET:` in part_000, `REJECT:` in
server.js) — a string-prefix test, not a structural variant — and every
rejection the respective validator itself produces carries one of that
validator's reason strings after the marker, so any error whose message
happens to start with the marker is answered 400 regardless of origin. -/
theorem claim4_amended :
    (∀ (headersSent : Bool) (message : String),
        onErrorIsRejection headersSent message =
          strStartsWith message rejectedMarker) ∧
    (∀ (L : List String) (u r : String),
        parseAndValidateTarget L u = .err r → isValidatorReason r = true) ∧
    (∀ (headersSent : Bool) (message : String),
        serverJsOnErrorIsRejection headersSent message =
          strStartsWith message rejectMarker) ∧
    (∀ (L : List String) (u r : String),
        allowedTarget L u = .err r → isServerJsValidatorReason r = true) := by
  refine ⟨?_, ?_, ?_, ?_⟩
  · intro hsent m
    unfold onErrorIsRejection onErrorResponse
    by_cases h : strStartsWith m rejectedMarker = true
    · simp [h]
    · have h' : strStartsWith m rejectedMarker = false := by
        cases hb : strStartsWith m rejectedMarker
        · rfl
        · exact absurd hb h
      cases hsent <;> simp [h']
  · intro L u r h
    unfold parseAndValidateTarget at h
    split at h
    · cases h; decide
    · split at h
      · cases h; decide
      · rcases parseAndValidateTargetRecord_err_reasons _ _ _ h with h1 | h1 | h1 <;>
          subst h1 <;> decide
  · intro hsent m
    unfold serverJsOnErrorIsRejection serverJsOnErrorResponse
    by_cases h : strStartsWith m rejectMarker = true
    · simp [h]
    · have h' : strStartsWith m rejectMarker = false := by
        cases hb : strStartsWith m rejectMarker
        · rfl
        · exact absurd hb h
      cases hsent <;> simp [h']
  · intro L u r h
    unfold allowedTarget at h
    split at h
    · cases h; decide
    · rcases allowedTargetRecord_err_reasons _ _ _ h with h1 | h1 | h1 <;>
        subst h1 <;> decide

/-- C4 witness: the amended theorem applied, for each variant, to a
concrete marker-bearing message and to a concrete validator rejection. -/
theorem claim4_witness :
    onErrorIsRejection false "REJECTED_TARGET:boom" = true ∧
    isValidatorReason reasonMissing = true ∧
    serverJsOnErrorIsRejection false "REJECT:boom" = true ∧
    isServerJsValidatorReason "Bad URL" = true :=
  ⟨(claim4_amended.1 false "REJECTED_TARGET:boom").trans (by decide),
   claim4_amended.2.1 ["example.com"] "" reasonMissing (by decide),
   (claim4_amended.2.2.1 false "REJECT:boom").trans (by decide),
   claim4_amended.2.2.2 ["example.com"] "bogus" "Bad URL" (by decide)⟩

/-- C5, counterexample: the claim says every target whose hostname is
`evil-` ++ entry ++ `.com` for an allowlisted entry is rejected with the
DomainNotAllowlisted reason.  For the entry `com`, the hostname
`evil-com.com` ends with `"." ++ "com"`, so it is a true-subdomain match
and the validator accepts it. -/
theorem claim5_counterexample :
    parseAndValidateTarget ["com"] "http://evil-com.com/" =
      .ok ⟨"http:", "evil-com.com", none, "/", ""⟩ ∧
    "evil-com.com" = "evil-" ++ "com" ++ ".com" ∧
    strEndsWith "evil-com.com" ("." ++ "com") = true := by
  refine ⟨by decide, by decide, by decide⟩

/-- C5 (amended): the allowlist match is exact-or-true-subdomain, never
bare substring: any parsed target (with supported scheme and
non-private hostname) whose lowercased hostname neither equals any
allowlist entry nor ends with `"." ++ entry` for any entry — merely
containing an entry as a substring does not help — is rejected with the
DomainNotAllowlisted reason.  The hostname `evil-` ++ entry ++ `.com`
is itself a true subdomain of the entry when the entry is a suffix such
as `com`, and is then accepted (see the counterexample). -/
theorem claim5_amended :
    ∀ (L : List String) (r : URLRecord),
      supportedProtocols.contains (strLower r.protocol) = true →
      isPrivateOrIpLiteral (strLower r.hostname) = false →
      (∀ d ∈ L, ¬(strLower r.hostname = d ∨
          strEndsWith (strLower r.hostname) ("." ++ d) = true)) →
      parseAndValidateTargetRecord L r = .err reasonNotAllowlisted := by
  intro L r hs hp hall
  have hs' : strLower r.protocol ∈ supportedProtocols := by simpa using hs
  have hnone : ¬ ∃ d ∈ L, strLower r.hostname = d ∨
      strEndsWith (strLower r.hostname) ("." ++ d) = true := by
    rintro ⟨d, hd, hmatch⟩
    exact hall d hd hmatch
  simp only [parseAndValidateTargetRecord]
  simp [hs', hp, hnone]

/-- C5 witness: `evil-example.com.com` under the allowlist
`["example.com"]` — it contains the entry as a substring but is neither
the entry nor a true subdomain, and is rejected. -/
theorem claim5_witness :
    parseAndValidateTargetRecord ["example.com"]
      ⟨"http:", "evil-example.com.com", none, "/", ""⟩ =
      .err reasonNotAllowlisted :=
  claim5_amended ["example.com"] ⟨"http:", "evil-example.com.com", none, "/", ""⟩
    (by decide) (by decide) (by decide)

/-- C6, counterexample: the claim says every parsed target with a supported
scheme, a hostname that is not private or an IP literal, and an
exact-or-subdomain allowlist match is accepted.  The server.js variant
violates it: the raw-IPv6 pattern `^[a-f0-9:]+$` inside `isPrivateHost`
matches every dotless all-hex-character hostname, so `http://cafe/` under
the allowlist `["cafe"]` — scheme `http`, hostname neither private nor an
IP literal, an exact allowlist match — is rejected as
`Private/invalid host`. -/
theorem claim6_counterexample :
    allowedTarget ["cafe"] "http://cafe/" = .err "Private/invalid host" ∧
    isPrivateOrIpLiteral (strLower "cafe") = false ∧
    supportedProtocols.contains (strLower "http:") = true := by
  refine ⟨by decide, by decide, by decide⟩

/-- C6 (amended): each variant accepts under its own network-safety
predicate.  part_000: every parsed target with a supported scheme, a
lowercased hostname with `isPrivateOrIpLiteral` false, and a lowercased
hostname equal to some allowlist entry or ending in `"." ++ entry` is
accepted, with the verdict carrying the parsed record as the descriptor.
server.js: acceptance additionally requires its `isPrivateHost` to pass
on the lowercased host-with-port — a predicate that also rejects dotless
all-hex hostnames such as `cafe` (see the counterexample) and that a
ported IP literal slips past (see the C1 counterexample); no scheme
condition is checked. -/
theorem claim6_amended :
    (∀ (L : List String) (r : URLRecord),
        supportedProtocols.contains (strLower r.protocol) = true →
        isPrivateOrIpLiteral (strLower r.hostname) = false →
        (∃ d ∈ L, strLower r.hostname = d ∨
            strEndsWith (strLower r.hostname) ("." ++ d) = true) →
        parseAndValidateTargetRecord L r = .ok r) ∧
    (∀ (L : List String) (r : URLRecord),
        strLower (hostOf r) ≠ "" →
        isPrivateHost (strLower (hostOf r)) = false →
        (∃ d ∈ L, serverJsHostname r = d ∨
            strEndsWith (serverJsHostname r) ("." ++ d) = true) →
        allowedTargetRecord L r = .ok r) := by
  constructor
  · intro L r hs hp hmatch
    have hs' : strLower r.protocol ∈ supportedProtocols := by simpa using hs
    simp only [parseAndValidateTargetRecord]
    simp [hs', hp, hmatch]
  · intro L r hne hp hmatch
    simp only [serverJsHostname] at hmatch
    have hany : (L.any fun a =>
        String.mk ((splitChar ':' (strLower (hostOf r)).data).headD []) == a ||
          strEndsWith (String.mk ((splitChar ':' (strLower (hostOf r)).data).headD []))
            ("." ++ a)) = true := by
      obtain ⟨d, hd, hm⟩ := hmatch
      refine List.any_eq_true.mpr ⟨d, hd, ?_⟩
      rcases hm with hm | hm <;>
        simp only [List.headD_eq_head?] at hm <;> simp [hm]
    simp only [allowedTargetRecord]
    rw [if_neg hne, if_neg (by simp [hp]), if_pos hany]

/-- C6 witness: the spec scenario `https://example.com/foo?x=1` under the
allowlist `["example.com"]`: the parse produces the descriptor
scheme `https`, host `example.com`, path `/foo`, query `x=1`, and both
validators accept it. -/
theorem claim6_witness :
    parseURL "https://example.com/foo?x=1" =
      some ⟨"https:", "example.com", none, "/foo", "?x=1"⟩ ∧
    parseAndValidateTargetRecord ["example.com"]
      ⟨"https:", "example.com", none, "/foo", "?x=1"⟩ =
      .ok ⟨"https:", "example.com", none, "/foo", "?x=1"⟩ ∧
    allowedTargetRecord ["example.com"]
      ⟨"https:", "example.com", none, "/foo", "?x=1"⟩ =
      .ok ⟨"https:", "example.com", none, "/foo", "?x=1"⟩ :=
  ⟨by decide,
   claim6_amended.1 ["example.com"]
     ⟨"https:", "example.com", none, "/foo", "?x=1"⟩
     (by decide) (by decide) ⟨"example.com", by decide, Or.inl (by decide)⟩,
   claim6_amended.2 ["example.com"]
     ⟨"https:", "example.com", none, "/foo", "?x=1"⟩
     (by decide) (by decide) ⟨"example.com", by decide, Or.inl (by decide)⟩⟩

/-- C7, counterexample: the claim says every `/proxy` request with a method
outside {GET, POST, PUT, PATCH, DELETE, HEAD, OPTIONS} is answered 405 and
never forwarded.  The part_000 route is installed with `app.use` and never
inspects the method: a TRACE request with a valid target is forwarded. -/
theorem claim7_counterexample :
    part000ProxyHandler ["example.com"] "TRACE" (some "https://example.com/") =
      .forward "https://example.com" (some "/") := by
  decide

/-- C7 (amended): the server.js `/proxy` middleware answers 405 — and never
forwards — for every method outside the allowed set; the part_000 variant
imposes no method restriction at all (see the counterexample). -/
theorem claim7_amended :
    ∀ (L : List String) (d m : String) (u : Option String),
      allowedMethods.contains m = false →
      serverJsProxyHandler L d m u = .methodNotAllowed := by
  intro L d m u hm
  have hm' : m ∉ allowedMethods := by simpa using hm
  simp only [serverJsProxyHandler]
  simp [hm']

/-- C7 witness: a TRACE request is answered 405 by the server.js pipeline
even when its target is allowlisted. -/
theorem claim7_witness :
    serverJsProxyHandler ["example.com"] "https://example.com" "TRACE"
      (some "https://example.com/") = .methodNotAllowed :=
  claim7_amended ["example.com"] "https://example.com" "TRACE"
    (some "https://example.com/") (by decide)

/-- Every header removed on a hop is one of the hop-by-hop headers. -/
theorem removedHopHeaders_subset (iu : Bool) (n : String)
    (h : n ∈ removedHopHeaders iu) : n ∈ hopByHopHeaders := by
  cases iu
  · simpa [removedHopHeaders] using h
  · simp [removedHopHeaders, hopByHopHeaders] at h ⊢
    tauto

/-- C8: request-direction sanitization removes exactly the hop-by-hop
headers `connection`, `keep-alive`, `proxy-authenticate`,
`proxy-authorization`, `te`, `trailers`, `transfer-encoding`, `upgrade`
and sets `X-Forwarded-By: safe-proxy-site`; on a protocol-upgrade hop the
`upgrade` and `connection` headers are preserved; every other header
passes through unchanged.  The non-upgrade case coincides with the
`onProxyReq` hook embedded from the source (last conjunct); the upgrade
branch follows the spec-modelled `forwardedRequestHeaders`. -/
theorem claim8_request_header_sanitization :
    ∀ (isUpgrade : Bool) (hs : Headers) (n : String),
      (n ∈ removedHopHeaders isUpgrade →
        headerLookup n (forwardedRequestHeaders isUpgrade hs) = none) ∧
      headerLookup "X-Forwarded-By" (forwardedRequestHeaders isUpgrade hs) =
        some "safe-proxy-site" ∧
      (n ∉ hopByHopHeaders → n ≠ "X-Forwarded-By" →
        headerLookup n (forwardedRequestHeaders isUpgrade hs) = headerLookup n hs) ∧
      (isUpgrade = true →
        headerLookup "upgrade" (forwardedRequestHeaders isUpgrade hs) =
          headerLookup "upgrade" hs ∧
        headerLookup "connection" (forwardedRequestHeaders isUpgrade hs) =
          headerLookup "connection" hs) ∧
      forwardedRequestHeaders false hs = onProxyReqHeaders hs := by
  intro iu hs n
  refine ⟨?_, ?_, ?_, ?_, rfl⟩
  · intro hn
    unfold forwardedRequestHeaders
    rw [headerLookup_removeHeaders]
    simp [hn]
  · unfold forwardedRequestHeaders
    rw [headerLookup_removeHeaders, headerLookup_setHeader]
    have hx : ("X-Forwarded-By" : String) ∉ removedHopHeaders iu := by
      cases iu <;> decide
    simp [hx]
  · intro h1 h2
    unfold forwardedRequestHeaders
    rw [headerLookup_removeHeaders, headerLookup_setHeader]
    have h3 : n ∉ removedHopHeaders iu := fun hc => h1 (removedHopHeaders_subset iu n hc)
    simp [h3, h2]
  · intro hiu
    subst hiu
    have hu : ("upgrade" : String) ∉ removedHopHeaders true := by decide
    have hc : ("connection" : String) ∉ removedHopHeaders true := by decide
    constructor <;>
    · unfold forwardedRequestHeaders
      rw [headerLookup_removeHeaders, headerLookup_setHeader]
      simp [hu, hc]

/-- C8 witness: the sanitization theorem instantiated on concrete header
collections — `te` removed, the identifying header set, `accept`
unchanged, and `upgrade` preserved on an upgrade hop. -/
theorem claim8_witness :
    headerLookup "te" (forwardedRequestHeaders false
      [("te", "trailers"), ("accept", "text/html")]) = none ∧
    headerLookup "X-Forwarded-By" (forwardedRequestHeaders false
      [("te", "trailers"), ("accept", "text/html")]) = some "safe-proxy-site" ∧
    headerLookup "accept" (forwardedRequestHeaders false
      [("te", "trailers"), ("accept", "text/html")]) = some "text/html" ∧
    headerLookup "upgrade" (forwardedRequestHeaders true
      [("upgrade", "websocket"), ("connection", "Upgrade")]) = some "websocket" :=
  ⟨(claim8_request_header_sanitization false
      [("te", "trailers"), ("accept", "text/html")] "te").1 (by decide),
   (claim8_request_header_sanitization false
      [("te", "trailers"), ("accept", "text/html")] "te").2.1,
   ((claim8_request_header_sanitization false
      [("te", "trailers"), ("accept", "text/html")] "accept").2.2.1
      (by decide) (by decide)).trans (by decide),
   (((claim8_request_header_sanitization true
      [("upgrade", "websocket"), ("connection", "Upgrade")] "x").2.2.2.1
      rfl).1).trans (by decide)⟩

/-- C9, counterexample: the claim says every upstream response relayed to
the client has its `server` and platform-identifying headers removed.
The part_000 `createProxyMiddleware` options register no `onProxyRes`
hook, so that variant relays upstream `server` and `x-powered-by` headers
to the client unchanged. -/
theorem claim9_counterexample :
    headerLookup "server" (part000ResponseHeaders
      [("server", "nginx"), ("x-powered-by", "Express")]) = some "nginx" ∧
    headerLookup "x-powered-by" (part000ResponseHeaders
      [("server", "nginx"), ("x-powered-by", "Express")]) = some "Express" := by
  refine ⟨by decide, by decide⟩

/-- C9 (amended): in the server.js variant, `onProxyRes` removes the
`server` and `x-powered-by` headers from every relayed upstream response
and leaves every other response header unchanged, and the upstream-bound
request produced by `onProxyReq` (both variants) carries
`X-Forwarded-By: safe-proxy-site`; the part_000 variant registers no
`onProxyRes` hook and relays response headers unchanged (see the
counterexample). -/
theorem claim9_response_header_contract :
    ∀ (req resp : Headers) (n : String),
      headerLookup "server" (onProxyResHeaders resp) = none ∧
      headerLookup "x-powered-by" (onProxyResHeaders resp) = none ∧
      (n ≠ "server" → n ≠ "x-powered-by" →
        headerLookup n (onProxyResHeaders resp) = headerLookup n resp) ∧
      headerLookup "X-Forwarded-By" (onProxyReqHeaders req) =
        some "safe-proxy-site" ∧
      part000ResponseHeaders resp = resp := by
  intro req resp n
  refine ⟨?_, ?_, ?_, ?_, rfl⟩
  · unfold onProxyResHeaders
    rw [headerLookup_removeHeader, headerLookup_removeHeader]
    simp
  · unfold onProxyResHeaders
    rw [headerLookup_removeHeader, headerLookup_removeHeader]
    simp
  · intro h1 h2
    unfold onProxyResHeaders
    rw [headerLookup_removeHeader, headerLookup_removeHeader]
    simp [h1, h2]
  · unfold onProxyReqHeaders
    rw [headerLookup_removeHeaders, headerLookup_setHeader]
    have hx : ("X-Forwarded-By" : String) ∉ hopByHopHeaders := by decide
    simp [hx]

/-- C9 witness: the contract instantiated on a concrete upstream response —
`server` and `x-powered-by` stripped, `content-type` untouched — and a
concrete upstream-bound request carrying the identifying header. -/
theorem claim9_witness :
    headerLookup "server" (onProxyResHeaders
      [("server", "nginx"), ("x-powered-by", "Express"),
       ("content-type", "text/html")]) = none ∧
    headerLookup "content-type" (onProxyResHeaders
      [("server", "nginx"), ("x-powered-by", "Express"),
       ("content-type", "text/html")]) = some "text/html" ∧
    headerLookup "X-Forwarded-By" (onProxyReqHeaders [("accept", "text/html")]) =
      some "safe-proxy-site" :=
  ⟨(claim9_response_header_contract [("accept", "text/html")]
      [("server", "nginx"), ("x-powered-by", "Express"),
       ("content-type", "text/html")] "content-type").1,
   ((claim9_response_header_contract [("accept", "text/html")]
      [("server", "nginx"), ("x-powered-by", "Express"),
       ("content-type", "text/html")] "content-type").2.2.1
      (by decide) (by decide)).trans (by decide),
   (claim9_response_header_contract [("accept", "text/html")]
      [("server", "nginx"), ("x-powered-by", "Express"),
       ("content-type", "text/html")] "content-type").2.2.2.1⟩

/-- C10: both validators are deterministic pure functions of the raw target
string and the allowlist, and the outer `/proxy` middleware and the proxy
router run the same validator on the same string, so for every request
carrying a `url` parameter that passes the outer pre-check, the router
returns normally — its rejection-throw branch is unreachable. -/
theorem claim10_router_rejection_unreachable :
    ∀ (L : List String) (d s : String),
      (part000OuterPasses L (some s) = true →
        routerOk (part000Router L (some s)) = true) ∧
      (serverJsOuterPasses L (some s) = true →
        routerOk (serverJsRouter L d (some s)) = true) := by
  intro L d s
  constructor
  · intro h
    unfold part000OuterPasses at h
    unfold part000Router routerOk
    cases hv : parseAndValidateTarget L ((some s).getD "") with
    | ok r => simp [hv]
    | err e => rw [hv] at h; simp at h
  · intro h
    unfold serverJsOuterPasses at h
    unfold serverJsRouter routerOk
    by_cases ht : truthy (some s) = false
    · simp [ht]
    · rw [if_neg ht] at h ⊢
      cases hv : allowedTarget L ((some s).getD "") with
      | ok r => simp [hv]
      | err e => rw [hv] at h; simp at h

/-- C10 witness: both routers return normally on a request whose `url`
parameter passed the outer pre-check. -/
theorem claim10_witness :
    routerOk (part000Router ["example.com"] (some "https://example.com/")) = true ∧
    routerOk (serverJsRouter ["example.com"] "https://example.com"
      (some "https://example.com/")) = true :=
  ⟨(claim10_router_rejection_unreachable ["example.com"] "https://example.com"
      "https://example.com/").1 (by decide),
   (claim10_router_rejection_unreachable ["example.com"] "https://example.com"
      "https://example.com/").2 (by decide)⟩

end SafeProxy
